import Mathlib

/-!
Verification of the Mumsys generic item manager
(`src/Mumsys/Generic/Manager.js`, with the behaviourally equivalent older
copy `src/Mumsys/Generic_Manager.js`).

The JavaScript code is shallowly embedded: JS scalar values become the
inductive `JsValue`, JS objects become insertion-ordered association lists
with unique keys (`JsObj`), and each manager method becomes a pure Lean
function on an explicit `Manager` state.  Methods that can `throw` return
the error message together with the state reached at the point of the
throw.  The asynchronous jQuery callbacks (`success`, `error`, `done`,
`fail`) never run during the synchronous body of a method; the synchronous
body only *dispatches* requests, which we record as the list of request
parameter objects handed to `jQuery.ajax`.
-/

mutual
/-- JavaScript values as far as the manager inspects them: numbers
(modelled as integers — every value the manager compares is integral),
strings, booleans, `null`, `undefined`, plain objects, and functions
(opaque callbacks, distinguished by a tag).  Structural equality of this
inductive coincides with JS strict equality `===` on primitives; on
objects and functions JS compares references, which the embedding does not
model, so no theorem below compares two `obj`/`fn` values with `===`. -/
inductive JsValue where
  | num (n : Int)
  | str (s : String)
  | bool (b : Bool)
  | null
  | undef
  | obj (fields : JsFields)
  | fn (tag : String)
deriving DecidableEq, Repr
inductive JsFields where
  | nil
  | cons (key : String) (value : JsValue) (rest : JsFields)
deriving DecidableEq, Repr
end

/-- A JS object: insertion-ordered key/value entries.  A real JS object
never holds the same key twice; concrete objects below respect this, and
theorems that need it take it as a hypothesis. -/
abbrev JsObj := List (String × JsValue)

/-- Packs an embedded object into a `JsValue`.  The manager never reads
inside an object-valued property: item property bags and request payloads
are attached and passed through opaquely. -/
def toFields : JsObj → JsFields
  | [] => .nil
  | (k, v) :: rest => .cons k v (toFields rest)

/-- First binding of a key in an association list (JS objects hold each
key at most once, so "first" is "the" binding). -/
def lookupKey {α : Type} (k : String) : List (String × α) → Option α
  | [] => none
  | (k', v) :: rest => if k' = k then some v else lookupKey k rest

/-- Property read `o[k]`: an absent key reads as `undefined`, exactly as
in JS. -/
def jsGet (o : JsObj) (k : String) : JsValue :=
  (lookupKey k o).getD JsValue.undef

/-- Property write `o[k] = v`: overwriting an existing key keeps its
original position in the insertion order (JS semantics); a new key is
appended. -/
def setKey (o : JsObj) (k : String) (v : JsValue) : JsObj :=
  match o with
  | [] => [(k, v)]
  | (k', v') :: rest =>
      if k' = k then (k, v) :: rest else (k', v') :: setKey rest k v

/-- The manager's `__map` stores integer positions; same write semantics
as `setKey`. -/
def setKeyNat (o : List (String × Nat)) (k : String) (v : Nat) :
    List (String × Nat) :=
  match o with
  | [] => [(k, v)]
  | (k', v') :: rest =>
      if k' = k then (k, v) :: rest else (k', v') :: setKeyNat rest k v

/-- JS coerces every value used as an object key to a string (`ToString`).
`__map[id]` therefore keys by the string form of the id: the number `3`
and the string `"3"` land on the same key, and the value `undefined`
lands on the key `"undefined"`. -/
def jsKey : JsValue → String
  | .num n => toString n
  | .str s => s
  | .bool b => if b then "true" else "false"
  | .null => "null"
  | .undef => "undefined"
  | .obj _ => "[object Object]"
  | .fn tag => tag

/-- `Mumsys_Generic_Item` (external collaborator): a property bag plus the
dirty flag driven by `isModified`/`setModified`. -/
structure Item where
  props : JsObj
  modified : Bool
deriving DecidableEq, Repr

/-- `item.get(key)`: reads a property; absent keys read as `undefined`. -/
def Item.get (it : Item) (k : String) : JsValue :=
  jsGet it.props k

/-- `item.getProperties()`: the full property mapping, as a JS object
value. -/
def Item.getProperties (it : Item) : JsValue :=
  JsValue.obj (toFields it.props)

/-- `item.isModified()`. -/
def Item.isModified (it : Item) : Bool :=
  it.modified

/-- `item.setModified(flag)`. -/
def Item.setModified (it : Item) (flag : Bool) : Item :=
  { it with modified := flag }

/-- The state held by a `Mumsys_Generic_Manager` instance: `__url`,
`__itemList`, the `isLoaded` flag (`__flags.isLoaded`), and the id index
`__map` (string key, integer position). -/
structure Manager where
  url : String
  itemList : List Item
  loaded : Bool
  map : List (String × Nat)
deriving DecidableEq, Repr

/-- The constructor `new Mumsys_Generic_Manager(url)`: `url = false`
(here `none`) selects the default `'jsonrpc.php'`; the list, flag and map
start empty/false. -/
def Manager.mk0 (url : Option String) : Manager :=
  { url := url.getD "jsonrpc.php", itemList := [], loaded := false, map := [] }

/-- `manager.getItems()`: the live item list. -/
def Manager.getItems (m : Manager) : List Item :=
  m.itemList

/-- `manager.isLoaded()`. -/
def Manager.isLoaded (m : Manager) : Bool :=
  m.loaded

/-- `manager.clear()`: empties `__itemList` and `__map`; touches nothing
else. -/
def Manager.clear (m : Manager) : Manager :=
  { m with itemList := [], map := [] }

/-- `manager.addItem(item)`.  The source first checks
`id !== undefined && this.__map[id] !== undefined` and throws the
duplicate-key error *before any assignment*, so the error case returns the
input state unchanged.  Otherwise it records `__map[id] = __itemList.length`
(for a defined id) and then pushes the item.  The `instanceof` guard always
passes in the embedding, where every `Item` is a generic item.  The JS
error message concatenates the id, which string-coerces it (`jsKey`). -/
def Manager.addItem (m : Manager) (item : Item) : Option String × Manager :=
  let id := item.get "id"
  if id ≠ JsValue.undef ∧ (lookupKey (jsKey id) m.map).isSome then
    (some ("\"id\" (" ++ jsKey id ++ ") is unique and already exists"), m)
  else
    let m1 :=
      if id ≠ JsValue.undef then
        { m with map := setKeyNat m.map (jsKey id) m.itemList.length }
      else m
    (none, { m1 with itemList := m1.itemList ++ [item] })

/-- The loop of `removeItem`: walks `__itemList` with index `i`, keeping
every item whose id is not strictly equal (`!==`) to the requested id in
`_tmp` and writing `_tmpmap[itemID] = i` for it — note the source writes
the *original* index `i`, not the position in `_tmp`. -/
def removeItemGo (id : JsValue) :
    List Item → Nat → List Item → List (String × Nat) →
      List Item × List (String × Nat)
  | [], _, tmp, tmpmap => (tmp, tmpmap)
  | it :: rest, i, tmp, tmpmap =>
      let itemID := it.get "id"
      if itemID ≠ id then
        removeItemGo id rest (i + 1) (tmp ++ [it])
          (setKeyNat tmpmap (jsKey itemID) i)
      else
        removeItemGo id rest (i + 1) tmp tmpmap

/-- `manager.removeItem(id)`: rebuilds `__itemList` and `__map` via the
loop above and installs the rebuilt pair. -/
def Manager.removeItem (m : Manager) (id : JsValue) : Manager :=
  let r := removeItemGo id m.itemList 0 [] []
  { m with itemList := r.1, map := r.2 }

/-- JS array read `list[value]` as `getItem` uses it: a non-negative
integer in range yields the element, anything else reads as `undefined`. -/
def jsIndex (l : List Item) (v : JsValue) : Option Item :=
  match v with
  | .num n => if n < 0 then none else l.get? n.toNat
  | _ => none

/-- The fallback scan of `getItem`: first item whose `get(key) === value`,
else the caller's default return value. -/
def getItemScan (l : List Item) (key : String) (value : JsValue)
    (defreturn : Option Item) : Option Item :=
  match l with
  | [] => defreturn
  | it :: rest =>
      if it.get key = value then some it
      else getItemScan rest key value defreturn

/-- `manager.getItem(key, value, defreturn)`.  `key === 'idx'` addresses
by position, with `value === -1` clamped to the last position (or 0 on an
empty list).  `key === 'id'` consults `__map[key]` — the source looks up
the literal string `"id"`, not `value`.  Otherwise the linear scan runs.
`none` plays JS `undefined`, both for “no item” and for an omitted
`defreturn`. -/
def Manager.getItem (m : Manager) (key : String) (value : JsValue)
    (defreturn : Option Item) : Option Item :=
  if key = "idx" then
    if value = JsValue.num (-1) then
      let k := if m.itemList.length = 0 then 0 else m.itemList.length - 1
      m.itemList.get? k
    else
      jsIndex m.itemList value
  else if key = "id" ∧ (lookupKey "id" m.map).isSome then
    m.itemList.get? ((lookupKey "id" m.map).getD 0)
  else
    getItemScan m.itemList key value defreturn

/-- `manager._buildParams(defaultParams, dataParams, requestParams)`,
first loop: `for (keyA in defaultParams)` copies `defaultParams[keyA]`
into the accumulator when `requestParams[keyA] === undefined`. -/
def buildLoop1 (rp : JsObj) : JsObj → JsObj → JsObj
  | [], acc => acc
  | (k, v) :: rest, acc =>
      if jsGet rp k = JsValue.undef then
        buildLoop1 rp rest (setKey acc k v)
      else
        buildLoop1 rp rest acc

/-- `_buildParams`, second loop: `for (keyB in requestParams)` copies
`requestParams[keyB]` in unless it is exactly `null` (the
`Generic_Manager.js` copy spells the same test `=== null` with an empty
"reset, dont use!" branch). -/
def buildLoop2 (rp : JsObj) : JsObj → JsObj → JsObj
  | [], acc => acc
  | (k, _) :: rest, acc =>
      if jsGet rp k = JsValue.null then
        buildLoop2 rp rest acc
      else
        buildLoop2 rp rest (setKey acc k (jsGet rp k))

/-- `manager._buildParams(defaultParams, dataParams, requestParams)`:
with truthy `requestParams` (`some rp`; every object, even `{}`, is
truthy) it runs the two loops over a fresh `{}`; otherwise the result is
`defaultParams` itself.  Finally `obj.data = dataParams` attaches the
payload, overwriting any existing `data` key. -/
def buildParams (defaultParams : JsObj) (dataParams : JsObj)
    (requestParams : Option JsObj) : JsObj :=
  let o :=
    match requestParams with
    | some rp => buildLoop2 rp rp (buildLoop1 rp defaultParams [])
    | none => defaultParams
  setKey o "data" (JsValue.obj (toFields dataParams))

/-- `manager.saveItem(item, params, requestParams)`.  Throws when
`params.item !== undefined`, *before* the `jQuery.ajax` line.  With a
dirty item it sets `params.item` to the item's properties, merges the
POST defaults via `_buildParams`, dispatches exactly one request, and
clears the dirty flag; the `done` callback is asynchronous and not part
of the synchronous body.  With a clean item nothing at all happens.  The
result carries the (unchanged) manager, the returned item, the `params`
object after any mutation, and the list of dispatched request
configurations; the source body never writes any manager field. -/
def Manager.saveItem (m : Manager) (item : Item) (params : JsObj)
    (requestParams : Option JsObj) :
    Except String (Manager × Item × JsObj × List JsObj) :=
  if jsGet params "item" ≠ JsValue.undef then
    .error "params.item property already defined"
  else if item.isModified then
    let params1 := setKey params "item" item.getProperties
    let defaultParams : JsObj :=
      [("url", JsValue.str m.url), ("type", JsValue.str "POST"),
       ("fail", JsValue.fn "fail")]
    let reqParams := buildParams defaultParams params1 requestParams
    .ok (m, item.setModified false, params1, [reqParams])
  else
    .ok (m, item, params, [])

/-! ## Helper lemmas about the object primitives -/

theorem lookupKey_setKey_self (o : JsObj) (k : String) (v : JsValue) :
    lookupKey k (setKey o k v) = some v := by
  induction o with
  | nil => simp [setKey, lookupKey]
  | cons kv rest ih =>
    obtain ⟨k', v'⟩ := kv
    by_cases h : k' = k
    · subst h; simp [setKey, lookupKey]
    · simp only [setKey, if_neg h, lookupKey, if_neg h]
      exact ih

theorem lookupKey_setKey_ne (o : JsObj) (k : String) (v : JsValue)
    (k' : String) (h : k' ≠ k) :
    lookupKey k' (setKey o k v) = lookupKey k' o := by
  induction o with
  | nil =>
    simp only [setKey, lookupKey]
    rw [if_neg (fun hk => h hk.symm)]
  | cons kv rest ih =>
    obtain ⟨k0, v0⟩ := kv
    by_cases h0 : k0 = k
    · subst h0
      simp only [setKey, if_pos rfl, lookupKey]
      rw [if_neg (fun hk => h hk.symm), if_neg (fun hk => h hk.symm)]
    · simp only [setKey, if_neg h0, lookupKey]
      by_cases h1 : k0 = k'
      · rw [if_pos h1, if_pos h1]
      · rw [if_neg h1, if_neg h1]
        exact ih

theorem jsGet_setKey_self (o : JsObj) (k : String) (v : JsValue) :
    jsGet (setKey o k v) k = v := by
  simp [jsGet, lookupKey_setKey_self]

theorem jsGet_setKey_ne (o : JsObj) (k : String) (v : JsValue)
    (k' : String) (h : k' ≠ k) : jsGet (setKey o k v) k' = jsGet o k' := by
  simp [jsGet, lookupKey_setKey_ne o k v k' h]

theorem lookupKey_setKeyNat_self (o : List (String × Nat)) (k : String)
    (v : Nat) : lookupKey k (setKeyNat o k v) = some v := by
  induction o with
  | nil => simp [setKeyNat, lookupKey]
  | cons kv rest ih =>
    obtain ⟨k', v'⟩ := kv
    by_cases h : k' = k
    · subst h; simp [setKeyNat, lookupKey]
    · simp only [setKeyNat, if_neg h, lookupKey, if_neg h]
      exact ih

theorem lookupKey_setKeyNat_ne (o : List (String × Nat)) (k : String)
    (v : Nat) (k' : String) (h : k' ≠ k) :
    lookupKey k' (setKeyNat o k v) = lookupKey k' o := by
  induction o with
  | nil =>
    simp only [setKeyNat, lookupKey]
    rw [if_neg (fun hk => h hk.symm)]
  | cons kv rest ih =>
    obtain ⟨k0, v0⟩ := kv
    by_cases h0 : k0 = k
    · subst h0
      simp only [setKeyNat, if_pos rfl, lookupKey]
      rw [if_neg (fun hk => h hk.symm), if_neg (fun hk => h hk.symm)]
    · simp only [setKeyNat, if_neg h0, lookupKey]
      by_cases h1 : k0 = k'
      · rw [if_pos h1, if_pos h1]
      · rw [if_neg h1, if_neg h1]
        exact ih

/-! ## Concrete fixtures used by the example-based claims -/

/-- The item `A(id=1)` of the spec's removal example. -/
def itemA : Item :=
  { props := [("id", JsValue.num 1), ("name", JsValue.str "A")], modified := false }

/-- The item `B(id=2)` of the spec's removal example. -/
def itemB : Item :=
  { props := [("id", JsValue.num 2), ("name", JsValue.str "B")], modified := false }

/-- The item `C(id=3)` of the spec's removal example. -/
def itemC : Item :=
  { props := [("id", JsValue.num 3), ("name", JsValue.str "C")], modified := false }

/-- A fresh manager after `addItem(A); addItem(B); addItem(C)`:
the collection `[A(id=1), B(id=2), C(id=3)]`. -/
def manager3 : Manager :=
  ((((Manager.mk0 none).addItem itemA).2.addItem itemB).2.addItem itemC).2

/-! ## Lemmas about the loops of the manager -/

theorem removeItemGo_keep_all (id : JsValue) (l : List Item) :
    ∀ (i : Nat) (tmp : List Item) (mp : List (String × Nat)),
      (∀ it ∈ l, it.get "id" ≠ id) →
      (removeItemGo id l i tmp mp).1 = tmp ++ l := by
  induction l with
  | nil => intro i tmp mp _; simp [removeItemGo]
  | cons a rest ih =>
    intro i tmp mp h
    have ha : a.get "id" ≠ id := h a (by simp)
    simp only [removeItemGo]
    rw [if_pos ha]
    rw [ih (i + 1) (tmp ++ [a]) _ (fun it hit => h it (by simp [hit]))]
    simp

theorem getItemScan_append_of_none (key : String) (value : JsValue)
    (d : Option Item) (l l2 : List Item)
    (h : ∀ it ∈ l, it.get key ≠ value) :
    getItemScan (l ++ l2) key value d = getItemScan l2 key value d := by
  induction l with
  | nil => simp
  | cons a rest ih =>
    have ha : a.get key ≠ value := h a (by simp)
    simp only [List.cons_append, getItemScan]
    rw [if_neg ha]
    exact ih (fun it hit => h it (by simp [hit]))

theorem get?_concat_self (l : List Item) (a : Item) :
    (l ++ [a]).get? l.length = some a := by
  induction l with
  | nil => rfl
  | cons b rest ih => simp only [List.cons_append, List.length_cons]; exact ih

theorem get?_pred_length_eq_getLast? (l : List Item) :
    l.get? (l.length - 1) = l.getLast? := by
  induction l with
  | nil => rfl
  | cons a rest ih =>
    cases rest with
    | nil => rfl
    | cons b rest2 =>
      rw [List.getLast?_cons_cons]
      simpa using ih

/-! ## The claims -/

/-- C10: `clear()` empties the item list and the id-index but leaves the
loaded flag exactly as it was: `isLoaded()` reads the same value right
after `clear()` as right before. -/
theorem c10_clear_empties_but_keeps_loaded_flag (m : Manager) :
    m.clear.getItems = [] ∧ m.clear.map = [] ∧
      m.clear.isLoaded = m.isLoaded :=
  ⟨rfl, rfl, rfl⟩

/-- C9: `getItem("idx", -1)` always returns the last item of the
collection — on the 3-item example the 3rd item — and on an empty
collection it addresses position 0 and returns `undefined` (`none`)
without any error. -/
theorem c9_getItem_idx_minus_one (m : Manager) (d : Option Item) :
    m.getItem "idx" (JsValue.num (-1)) d = m.itemList.getLast? ∧
      manager3.getItem "idx" (JsValue.num (-1)) none = some itemC ∧
      (Manager.mk0 none).getItem "idx" (JsValue.num (-1)) none = none := by
  refine ⟨?_, rfl, rfl⟩
  simp only [Manager.getItem, if_pos rfl]
  cases h : m.itemList with
  | nil => simp
  | cons a rest =>
    have hlen : (a :: rest).length ≠ 0 := by simp
    rw [if_neg hlen]
    exact get?_pred_length_eq_getLast? (a :: rest)

/-- C1 (evaluation of the failing run): after adding `A(id=1)`, `B(id=2)`,
`C(id=3)` to a fresh manager and calling `removeItem(2)`, the item with
id `3` sits at position 1 of the rebuilt list, but the rebuilt id-index
still maps the key `"3"` to position 2 — an out-of-range position in the
2-element list — so the id-index is not consistent with the item list. -/
theorem c1_removeItem_index_shift_eval :
    (manager3.removeItem (JsValue.num 2)).itemList = [itemA, itemC] ∧
      itemC.get "id" = JsValue.num 3 ∧
      (manager3.removeItem (JsValue.num 2)).map = [("1", 0), ("3", 2)] ∧
      (manager3.removeItem (JsValue.num 2)).itemList.length = 2 :=
  ⟨rfl, rfl, rfl, rfl⟩

/-- C3: adding an item whose defined id already has an entry in the
id-index fails with the duplicate-key error and returns the manager state
bit-for-bit unchanged: no partial mutation of the item list or the
id-index. -/
theorem c3_addItem_duplicate_id_atomic (m : Manager) (item : Item)
    (hdef : item.get "id" ≠ JsValue.undef)
    (hdup : (lookupKey (jsKey (item.get "id")) m.map).isSome) :
    m.addItem item =
      (some ("\"id\" (" ++ jsKey (item.get "id") ++
        ") is unique and already exists"), m) := by
  simp only [Manager.addItem]
  rw [if_pos ⟨hdef, hdup⟩]

/-- C3 witness: adding a second item with id `1` to the example manager
fails with the duplicate-key error and leaves the state unchanged. -/
theorem c3_addItem_duplicate_id_atomic_witness :
    manager3.addItem { props := [("id", JsValue.num 1)], modified := false } =
      (some "\"id\" (1) is unique and already exists", manager3) :=
  c3_addItem_duplicate_id_atomic manager3
    { props := [("id", JsValue.num 1)], modified := false }
    (by decide) (by decide)

/-- C4: `removeItem(2)` on `[A(id=1), B(id=2), C(id=3)]` yields exactly
`[A, C]` in that order and `getItem("idx", 1)` then returns `C`;
`removeItem` with an id strictly matching no item leaves the item sequence
(and hence its length) unchanged, and in particular the string `"3"`
matches none of the numeric ids `1`, `2`, `3`. -/
theorem c4_removeItem_middle_and_noop :
    (manager3.removeItem (JsValue.num 2)).itemList = [itemA, itemC] ∧
      (manager3.removeItem (JsValue.num 2)).getItem "idx" (JsValue.num 1) none
        = some itemC ∧
      (∀ (m : Manager) (id : JsValue),
        (∀ it ∈ m.itemList, it.get "id" ≠ id) →
        (m.removeItem id).itemList = m.itemList) ∧
      (manager3.removeItem (JsValue.str "3")).itemList = manager3.itemList := by
  refine ⟨rfl, rfl, ?_, rfl⟩
  intro m id h
  simp only [Manager.removeItem]
  exact removeItemGo_keep_all id m.itemList 0 [] [] h

/-- C4 witness: removing the unused id `99` from the example manager is a
no-op on the item sequence. -/
theorem c4_removeItem_middle_and_noop_witness :
    (manager3.removeItem (JsValue.num 99)).itemList = manager3.itemList :=
  c4_removeItem_middle_and_noop.2.2.1 manager3 (JsValue.num 99) (by decide)

/-! ## Lemmas about the two loops of the parameter merge -/

theorem buildLoop1_absent (rp : JsObj) (k : String)
    (hk : jsGet rp k ≠ JsValue.undef) :
    ∀ (l acc : JsObj), jsGet acc k = JsValue.undef →
      jsGet (buildLoop1 rp l acc) k = JsValue.undef := by
  intro l
  induction l with
  | nil => intro acc h; simpa [buildLoop1] using h
  | cons kv rest ih =>
    obtain ⟨k0, v0⟩ := kv
    intro acc h
    simp only [buildLoop1]
    by_cases hc : jsGet rp k0 = JsValue.undef
    · rw [if_pos hc]
      refine ih _ ?_
      have hkk : k ≠ k0 := fun he => hk (he ▸ hc)
      rw [jsGet_setKey_ne acc k0 v0 k hkk]
      exact h
    · rw [if_neg hc]
      exact ih acc h

theorem buildLoop2_null_absent (rp : JsObj) (k : String)
    (hnull : jsGet rp k = JsValue.null) :
    ∀ (l acc : JsObj), jsGet acc k = JsValue.undef →
      jsGet (buildLoop2 rp l acc) k = JsValue.undef := by
  intro l
  induction l with
  | nil => intro acc h; simpa [buildLoop2] using h
  | cons kv rest ih =>
    obtain ⟨k0, v0⟩ := kv
    intro acc h
    simp only [buildLoop2]
    by_cases hc : jsGet rp k0 = JsValue.null
    · rw [if_pos hc]
      exact ih acc h
    · rw [if_neg hc]
      refine ih _ ?_
      have hkk : k ≠ k0 := fun he => hc (he ▸ hnull)
      rw [jsGet_setKey_ne acc k0 (jsGet rp k0) k hkk]
      exact h

/-- C2 counterexample: with defaults `{a: 1}`, empty data and overrides
`{a: null}`, the claim says the returned bag maps `a` to the default `1`;
the code instead returns a bag with no binding for `a` at all (reading
`a` yields `undefined`). -/
theorem c2_null_override_counterexample :
    jsGet [("a", JsValue.num 1)] "a" = JsValue.num 1 ∧
      jsGet [("a", JsValue.null)] "a" = JsValue.null ∧
      jsGet (buildParams [("a", JsValue.num 1)] []
        (some [("a", JsValue.null)])) "a" = JsValue.undef ∧
      JsValue.undef ≠ JsValue.num 1 :=
  ⟨rfl, rfl, rfl, by decide⟩

/-- C2 (amended): for every defaults object, data object and overrides
object, and every key `k` other than `"data"` such that `overrides[k]` is
exactly `null` and `defaults[k]` is defined, the configuration bag
returned by `_buildParams(defaults, data, overrides)` has no binding for
`k` at all — reading `k` yields `undefined`: the `null` override removes
the key instead of keeping the default. -/
theorem c2_null_override_drops_key (d dt rp : JsObj) (k : String)
    (hk : k ≠ "data") (hnull : jsGet rp k = JsValue.null)
    (_hd : jsGet d k ≠ JsValue.undef) :
    jsGet (buildParams d dt (some rp)) k = JsValue.undef := by
  simp only [buildParams]
  rw [jsGet_setKey_ne _ "data" _ k hk]
  refine buildLoop2_null_absent rp k hnull rp _ ?_
  refine buildLoop1_absent rp k ?_ d [] rfl
  rw [hnull]
  intro hcon
  exact absurd hcon (by decide)

/-- C2 witness: the amended claim at defaults `{a: 1, b: 2}`, data
`{x: 1}` and overrides `{a: null}`. -/
theorem c2_null_override_drops_key_witness :
    jsGet (buildParams [("a", JsValue.num 1), ("b", JsValue.num 2)]
      [("x", JsValue.num 1)] (some [("a", JsValue.null)])) "a"
      = JsValue.undef :=
  c2_null_override_drops_key [("a", JsValue.num 1), ("b", JsValue.num 2)]
    [("x", JsValue.num 1)] [("a", JsValue.null)] "a"
    (by decide) rfl (by decide)

/-- C6: `_buildParams({a:1, b:2}, {x:1}, {b:3, c:4})` returns exactly
`{a:1, b:3, c:4, data:{x:1}}` (in that insertion order), and for every
defaults, data and overrides the returned bag's `data` field is exactly
the data argument, overwriting any `data` key from either source. -/
theorem c6_buildParams_merge :
    buildParams [("a", JsValue.num 1), ("b", JsValue.num 2)]
        [("x", JsValue.num 1)]
        (some [("b", JsValue.num 3), ("c", JsValue.num 4)]) =
      [("a", JsValue.num 1), ("b", JsValue.num 3), ("c", JsValue.num 4),
        ("data", JsValue.obj (toFields [("x", JsValue.num 1)]))] ∧
      (∀ (d dt : JsObj) (rp : Option JsObj),
        jsGet (buildParams d dt rp) "data"
          = JsValue.obj (toFields dt)) := by
  refine ⟨rfl, ?_⟩
  intro d dt rp
  simp only [buildParams]
  exact jsGet_setKey_self _ "data" _

/-! ## C5 fixtures: the two ways the index defeats an id lookup -/

/-- An item whose id is the literal string `"id"`. -/
def itemLit : Item := { props := [("id", JsValue.str "id")], modified := false }

/-- An item with the fresh numeric id `5`. -/
def itemFive : Item := { props := [("id", JsValue.num 5)], modified := false }

/-- A fresh manager holding only `itemLit`. -/
def managerLit : Manager := ((Manager.mk0 none).addItem itemLit).2

/-- A fresh manager holding only `C(id=3)`. -/
def managerNum3 : Manager := ((Manager.mk0 none).addItem itemC).2

/-- An item whose id is the string `"3"` — strictly different from the
number `3`, but landing on the same index key. -/
def itemStr3 : Item := { props := [("id", JsValue.str "3")], modified := false }

/-- C5 counterexample, two independent failures of the claim as stated.
First: on a manager holding only an item whose id is the literal string
`"id"`, the id `5` is fresh and `addItem` succeeds, yet
`getItem("id", 5)` returns the `"id"`-item, not the added one, because the
source consults the index under the literal key `"id"`.  Second: on a
manager holding `C(id=3)`, the string id `"3"` is strictly equal to no
item's id, yet `addItem` throws and the length does not grow, because the
index keys ids by their string form. -/
theorem c5_addItem_then_getItem_counterexample :
    ((∀ it ∈ managerLit.itemList, it.get "id" ≠ JsValue.num 5) ∧
      (managerLit.addItem itemFive).1 = none ∧
      (managerLit.addItem itemFive).2.getItem "id" (JsValue.num 5) none
        = some itemLit ∧
      itemLit ≠ itemFive) ∧
    ((∀ it ∈ managerNum3.itemList, it.get "id" ≠ JsValue.str "3") ∧
      (managerNum3.addItem itemStr3).1.isSome ∧
      (managerNum3.addItem itemStr3).2.getItems.length
        = managerNum3.getItems.length) := by
  exact ⟨⟨by decide, rfl, rfl, by decide⟩, ⟨by decide, rfl, rfl⟩⟩

/-- C5 (amended): for every manager state whose id-index has no entry
under the string key of the new item's id and no entry under the literal
key `"id"`, and every item whose defined id is strictly equal to no
listed item's id, `addItem(item)` succeeds, increases the length of
`getItems()` by exactly 1, and afterwards `getItem("id", thatId)` returns
that item. -/
theorem c5_addItem_fresh_id_then_getItem (m : Manager) (item : Item)
    (hdef : item.get "id" ≠ JsValue.undef)
    (hnotin : ∀ it ∈ m.itemList, it.get "id" ≠ item.get "id")
    (hkey : lookupKey (jsKey (item.get "id")) m.map = none)
    (hlit : lookupKey "id" m.map = none) :
    (m.addItem item).1 = none ∧
      (m.addItem item).2.getItems.length = m.getItems.length + 1 ∧
      (m.addItem item).2.getItem "id" (item.get "id") none = some item := by
  have hcond : ¬(item.get "id" ≠ JsValue.undef ∧
      (lookupKey (jsKey (item.get "id")) m.map).isSome) := by
    rintro ⟨-, hs⟩
    rw [hkey] at hs
    exact absurd hs (by decide)
  have hadd : m.addItem item =
      (none, { m with
        map := setKeyNat m.map (jsKey (item.get "id")) m.itemList.length,
        itemList := m.itemList ++ [item] }) := by
    simp only [Manager.addItem]
    rw [if_neg hcond, if_pos hdef]
  refine ⟨by rw [hadd], by simp [hadd, Manager.getItems], ?_⟩
  rw [hadd]
  simp only [Manager.getItem]
  rw [if_neg (by decide : ¬("id" = "idx"))]
  by_cases hk : jsKey (item.get "id") = "id"
  · rw [hk]
    rw [if_pos ⟨trivial, by rw [lookupKey_setKeyNat_self]; rfl⟩]
    rw [lookupKey_setKeyNat_self]
    exact get?_concat_self m.itemList item
  · have hnone : lookupKey "id"
        (setKeyNat m.map (jsKey (item.get "id")) m.itemList.length) = none := by
      rw [lookupKey_setKeyNat_ne _ _ _ _ (fun he => hk he.symm)]
      exact hlit
    rw [if_neg (by rw [hnone]; rintro ⟨-, hs⟩; exact absurd hs (by decide))]
    rw [getItemScan_append_of_none "id" (item.get "id") none m.itemList
      [item] hnotin]
    simp [getItemScan]

/-- C5 witness: the amended claim at the example manager `[A, B, C]` and a
fresh item with id `7`. -/
theorem c5_addItem_fresh_id_then_getItem_witness :
    (manager3.addItem { props := [("id", JsValue.num 7)], modified := false }).1
      = none ∧
    (manager3.addItem
      { props := [("id", JsValue.num 7)], modified := false }).2.getItems.length
      = manager3.getItems.length + 1 ∧
    (manager3.addItem
      { props := [("id", JsValue.num 7)], modified := false }).2.getItem "id"
        (Item.get { props := [("id", JsValue.num 7)], modified := false } "id")
        none
      = some { props := [("id", JsValue.num 7)], modified := false } :=
  c5_addItem_fresh_id_then_getItem manager3
    { props := [("id", JsValue.num 7)], modified := false }
    (by decide) (by decide) (by decide) (by decide)

/-- C7: saving a clean item (`isModified() === false`) with a params
object that has no `item` key dispatches zero transport requests and
returns the very same item, with the manager state and the params object
untouched. -/
theorem c7_saveItem_unmodified_noop (m : Manager) (item : Item)
    (params : JsObj) (rp : Option JsObj)
    (hclean : item.isModified = false)
    (hfree : jsGet params "item" = JsValue.undef) :
    m.saveItem item params rp = .ok (m, item, params, []) := by
  simp only [Manager.saveItem]
  rw [if_neg (by rw [hfree]; exact fun hc => hc rfl)]
  rw [if_neg (by rw [hclean]; exact Bool.false_ne_true)]

/-- C7 witness: saving the clean `itemA` on the example manager with empty
params makes no transport call and returns `itemA` itself. -/
theorem c7_saveItem_unmodified_noop_witness :
    manager3.saveItem itemA [] none = .ok (manager3, itemA, [], []) :=
  c7_saveItem_unmodified_noop manager3 itemA [] none rfl rfl

/-- C8: when the params object already defines the key `item`,
`saveItem` raises the invalid-argument error with no transport call made,
whatever the item's dirty flag is — the throw sits before the dispatch in
the source. -/
theorem c8_saveItem_reserved_item_key (m : Manager) (item : Item)
    (params : JsObj) (rp : Option JsObj)
    (hres : jsGet params "item" ≠ JsValue.undef) :
    m.saveItem item params rp = .error "params.item property already defined" := by
  simp only [Manager.saveItem]
  rw [if_pos hres]

/-- C8 witness: a dirty item and a params object carrying an `item` key —
the call errors out all the same. -/
theorem c8_saveItem_reserved_item_key_witness :
    manager3.saveItem { itemA with modified := true }
      [("item", JsValue.num 9)] none
      = .error "params.item property already defined" :=
  c8_saveItem_reserved_item_key manager3 { itemA with modified := true }
    [("item", JsValue.num 9)] none (by decide)
